import Mathlib

/- Verification development for the PointNav dataset loader
   (habitat/datasets/pointnav/pointnav_dataset.py).

   Python strings are modelled as Lean strings (sequences of unicode
   scalar values, matching Python's code-point semantics).  The string
   primitives the loader uses (str.split, str.replace, str.format on a
   single placeholder, slicing, startswith/endswith, os.path.join,
   os.path.dirname) are given explicit executable models below.  The
   filesystem is modelled as a finite map from paths to already
   gunzipped and lexed JSON documents, together with a finite map from
   directory paths to their listings. -/

/-- Lexicographic code-point comparison of character lists: this is the
order Python's string comparison and list.sort() use. -/
def listCharLe : List Char → List Char → Bool
  | [], _ => true
  | _ :: _, [] => false
  | a :: as, b :: bs =>
    if a.toNat < b.toNat then true
    else if b.toNat < a.toNat then false
    else listCharLe as bs

/-- Python string less-or-equal, as a decidable relation on strings. -/
def pyLe (a b : String) : Prop := listCharLe a.data b.data = true

instance : DecidableRel pyLe := fun _ _ => inferInstanceAs (Decidable (_ = true))

/-- Leftmost-occurrence split step: when `sep` occurs in `xs`, return the
part before the first occurrence and the part after it. -/
def findSplit (sep : List Char) : List Char → Option (List Char × List Char)
  | [] => none
  | x :: rest =>
    if sep.isPrefixOf (x :: rest) then some ([], (x :: rest).drop sep.length)
    else (findSplit sep rest).map (fun p => (x :: p.1, p.2))

/-- Fuel-driven repeated split; fuel `xs.length` always suffices because
every found occurrence consumes at least one character. -/
def splitChAux (sep : List Char) : Nat → List Char → List (List Char)
  | 0, xs => [xs]
  | fuel + 1, xs =>
    match findSplit sep xs with
    | none => [xs]
    | some (pre, post) => pre :: splitChAux sep fuel post

/-- Model of Python `s.split(sep)` for nonempty `sep` (the loader only
splits on the literal placeholder token "{scene}"). -/
def pySplit (s sep : String) : List String :=
  if sep.data = [] then [s]
  else (splitChAux sep.data s.data.length s.data).map (fun cs => String.mk cs)

/-- Model of Python `s.replace(old, new)` for nonempty `old`; equal to
`new.join(s.split(old))`, which is how CPython specifies it. -/
def pyReplace (s old new : String) : String :=
  if old.data = [] then s
  else String.mk (List.intercalate new.data (splitChAux old.data s.data.length s.data))

/-- Model of Python `s.startswith(pre)`. -/
def startswithPy (s pre : String) : Bool := pre.data.isPrefixOf s.data

/-- Model of Python `s.endswith(suf)`. -/
def endswithPy (s suf : String) : Bool := suf.data.isSuffixOf s.data

/-- Model of Python slicing `s[n:]`. -/
def pyDrop (s : String) (n : Nat) : String := String.mk (s.data.drop n)

/-- Model of the Python slice `filename[: -len(ext)]` used by scene
discovery.  Note the CPython quirk: when `ext` is empty the slice is
`s[:-0] = s[:0] = ""`, not `s`. -/
def stripExtPy (s ext : String) : String :=
  if ext.data.length = 0 then String.mk []
  else String.mk (s.data.take (s.data.length - ext.data.length))

/-- Model of Python `os.path.join(a, b)` (posix rules, two arguments). -/
def osPathJoin (a b : String) : String :=
  if startswithPy b ("/") then b
  else if a = "" then b
  else if endswithPy a ("/") then a ++ b
  else a ++ "/" ++ b

/-- Model of Python `os.path.dirname(p)` (posix rules). -/
def dirnamePy (p : String) : String :=
  let cs := p.data
  let i := cs.length - (cs.reverse.takeWhile (fun c => c ≠ '/')).length
  let head := cs.take i
  if head.isEmpty || head.all (fun c => c = '/') then String.mk head
  else String.mk ((head.reverse.dropWhile (fun c => c = '/')).reverse)

/-- Modelled from the spec: a navigation target owned by its episode
(the NavigationGoal record lives in habitat/tasks/nav/nav.py, which is
not among the sources under verification).  Positions are opaque
integer vectors. -/
structure NavigationGoal where
  position : List Int
  deriving DecidableEq, Repr

/-- Modelled from the spec: one waypoint of a precomputed shortest-path
trace (position/rotation/action), treated as opaque structured data. -/
structure ShortestPathPoint where
  position : List Int
  rotation : List Int
  action : Option Int
  deriving DecidableEq, Repr

/-- Modelled from the spec: one navigation task instance with a unique
id, a scene_id path (the only field mutated after construction), start
position/rotation, ordered goals, and optional shortest-path traces. -/
structure NavigationEpisode where
  episode_id : String
  scene_id : String
  start_position : List Int
  start_rotation : List Int
  goals : List NavigationGoal
  shortest_paths : Option (List (List ShortestPathPoint))
  deriving DecidableEq, Repr

/-- A raw goal object as decoded from JSON: fields may be missing. -/
structure GoalObj where
  position : Option (List Int)
  deriving DecidableEq, Repr

/-- A raw shortest-path waypoint object as decoded from JSON. -/
structure PointObj where
  position : Option (List Int)
  rotation : Option (List Int)
  action : Option Int
  deriving DecidableEq, Repr

/-- A raw episode object as decoded from JSON: every field may be
missing; an absent or null shortest_paths field is `none`. -/
structure EpisodeObj where
  episode_id : Option String
  scene_id : Option String
  start_position : Option (List Int)
  start_rotation : Option (List Int)
  goals : Option (List GoalObj)
  shortest_paths : Option (List (List PointObj))
  deriving DecidableEq, Repr

/-- A decoded top-level dataset document: the optional
content_scenes_path override field and the episodes array. -/
structure JsonDoc where
  content_scenes_path : Option String
  episodes : List EpisodeObj
  deriving DecidableEq, Repr

/-- The raw text handed to from_json: either malformed (json.loads
raises) or a decoded document. -/
inductive RawJson where
  | malformed
  | doc (d : JsonDoc)
  deriving DecidableEq, Repr

/-- Errors surfaced by the loader: FileNotFoundError from gzip.open or
the explicit existence check, and deserialization failures (malformed
JSON or keyword-construction of a typed record from an object missing
required fields). -/
inductive LoadError where
  | fileNotFound
  | deserialization
  deriving DecidableEq, Repr

/-- Filesystem accesses performed by the loader, in order. -/
inductive Access where
  | openFile (p : String)
  | statDir (p : String)
  deriving DecidableEq, Repr

/-- The dataset instance state: the ordered episode collection plus the
mutable dataset-level content-scenes-path template. -/
structure DatasetV1 where
  episodes : List NavigationEpisode
  content_scenes_path : String
  deriving DecidableEq, Repr

/-- Source constant DEFAULT_SCENE_PATH_PREFIX. -/
def DEFAULT_SCENE_PATH_PFX : String := "data/scene_datasets/"

/-- Modelled from the spec: the all-scenes sentinel constant provided by
the external base Dataset contract (habitat/core/dataset.py, not among
the sources under verification). -/
def ALL_SCENES_MASK : String := "*"

/-- The class-level default of content_scenes_path. -/
def defaultContentScenesPath : String := "{data_path}/content/{scene}.json.gz"

/-- A fresh dataset instance right after `self.episodes = []`. -/
def datasetInitEmpty : DatasetV1 :=
  { episodes := [], content_scenes_path := defaultContentScenesPath }

/-- Modelled from the spec: NavigationGoal(**goal) keyword construction;
fails when a required field is missing. -/
def mkGoal (g : GoalObj) : Option NavigationGoal := g.position.map NavigationGoal.mk

/-- Modelled from the spec: ShortestPathPoint(**point) keyword
construction; fails when a required field is missing. -/
def mkPoint (p : PointObj) : Option ShortestPathPoint :=
  match p.position, p.rotation with
  | some pos, some rot => some ⟨pos, rot, p.action⟩
  | _, _ => none

/-- Modelled from the spec: NavigationEpisode(**episode) keyword
construction together with the per-goal and per-waypoint constructions
performed by from_json; fails when any required field is missing. -/
def mkEpisode (e : EpisodeObj) : Option NavigationEpisode :=
  match e.episode_id, e.scene_id, e.start_position, e.start_rotation, e.goals with
  | some eid, some sid, some sp, some sr, some gs =>
    match gs.mapM mkGoal with
    | none => none
    | some goals =>
      match e.shortest_paths with
      | none => some ⟨eid, sid, sp, sr, goals, none⟩
      | some paths =>
        match paths.mapM (fun path => path.mapM mkPoint) with
        | none => none
        | some ps => some ⟨eid, sid, sp, sr, goals, some ps⟩
  | _, _, _, _, _ => none

/-- The scene_id rewrite from from_json: strip DEFAULT_SCENE_PATH_PREFIX
when present, then os.path.join the scenes_dir override with the rest. -/
def rewriteSceneId (scenes_dir sid : String) : String :=
  let sid2 :=
    if startswithPy sid DEFAULT_SCENE_PATH_PFX
    then pyDrop sid (DEFAULT_SCENE_PATH_PFX.data.length)
    else sid
  osPathJoin scenes_dir sid2

/-- One iteration of the from_json episode loop, up to (but excluding)
the append: typed construction, then the conditional path rewrite. -/
def processEpisode (scenes_dir : Option String) (e : EpisodeObj) : Option NavigationEpisode :=
  match mkEpisode e with
  | none => none
  | some ep =>
    match scenes_dir with
    | none => some ep
    | some d => some { ep with scene_id := rewriteSceneId d ep.scene_id }

/-- The from_json episode loop: each successfully constructed episode is
appended immediately; a failing construction raises, leaving the
episodes appended so far in place. -/
def episodesLoop (sd : Option String) : List EpisodeObj → DatasetV1 → DatasetV1 × Option LoadError
  | [], ds => (ds, none)
  | e :: rest, ds =>
    match processEpisode sd e with
    | none => (ds, some LoadError.deserialization)
    | some ep => episodesLoop sd rest { ds with episodes := ds.episodes ++ [ep] }

/-- PointNavDatasetV1.from_json: malformed input raises before any
mutation; otherwise the template override (if declared) is applied
first and then the episode loop runs. -/
def from_json (sd : Option String) (raw : RawJson) (ds : DatasetV1) : DatasetV1 × Option LoadError :=
  match raw with
  | RawJson.malformed => (ds, some LoadError.deserialization)
  | RawJson.doc d =>
    let ds1 :=
      match d.content_scenes_path with
      | some t => { ds with content_scenes_path := t }
      | none => ds
    episodesLoop sd d.episodes ds1

/-- The filesystem: a finite map from file paths to their (decoded)
contents, and a finite map from directory paths to their listings. -/
structure FileSystem where
  files : List (String × RawJson)
  dirs : List (String × List String)
  deriving DecidableEq

/-- Model of gzip.open + read on a path: the decoded content when the
file exists. -/
def FileSystem.readFile (fs : FileSystem) (p : String) : Option RawJson :=
  List.lookup p fs.files

/-- Model of os.path.exists restricted to directories, plus os.listdir:
the listing when the directory exists.  Existence of a non-directory at
a directory path is not modelled. -/
def FileSystem.lookupDir (fs : FileSystem) (p : String) : Option (List String) :=
  List.lookup p fs.dirs

/-- Model of os.path.exists on an arbitrary path. -/
def FileSystem.pathExists (fs : FileSystem) (p : String) : Bool :=
  (fs.readFile p).isSome || (fs.lookupDir p).isSome

/-- Well-formedness of the modelled filesystem: the parent directory of
every existing file exists, and the parent of every existing directory
exists (unless the path is its own dirname, e.g. "" or "/"). -/
def FileSystem.WF (fs : FileSystem) : Prop :=
  (∀ pr ∈ fs.files, (fs.lookupDir (dirnamePy pr.1)).isSome = true) ∧
  (∀ dr ∈ fs.dirs, dirnamePy dr.1 = dr.1 ∨ (fs.lookupDir (dirnamePy dr.1)).isSome = true)

/-- The configuration fields the loader consumes. -/
structure Config where
  data_path : String
  split : String
  scenes_dir : String
  content_scenes : List String
  deriving DecidableEq

/-- config.data_path.format(split=config.split). -/
def combinedPath (cfg : Config) : String := pyReplace cfg.data_path ("{split}") cfg.split

/-- content_scenes_path.split("{scene}")[0].format(data_path=dataset_dir):
the per-scene content directory implied by the template. -/
def contentPfxOf (csp dd : String) : String :=
  pyReplace ((pySplit csp ("{scene}")).getD 0 ("")) ("{data_path}") dd

/-- content_scenes_path.split("{scene}")[1]: the shard filename suffix
of the template (Python raises IndexError when the placeholder is
absent; the claims assume templates containing it). -/
def sceneExtOf (csp : String) : String := (pySplit csp ("{scene}")).getD 1 ("")

/-- content_scenes_path.format(data_path=dataset_dir, scene=scene): the
shard file path of one scene. -/
def shardPath (csp dd scene : String) : String :=
  pyReplace (pyReplace csp ("{data_path}") dd) ("{scene}") scene

/-- PointNavDatasetV1._get_scenes_from_folder: empty when the content
directory is missing, otherwise the sorted list of listing entries that
end with the template suffix, with that suffix sliced off. -/
def _get_scenes_from_folder (fs : FileSystem) (content_scenes_path dataset_dir : String) :
    List String :=
  match fs.lookupDir (contentPfxOf content_scenes_path dataset_dir) with
  | none => []
  | some entries =>
    List.insertionSort pyLe
      ((entries.filter (fun f => endswithPy f (sceneExtOf content_scenes_path))).map
        (fun f => stripExtPy f (sceneExtOf content_scenes_path)))

/-- Modelled from the spec: Dataset.scene_from_scene_path from the
external base contract (habitat/core/dataset.py): the basename of the
path without its extension. -/
def scene_from_scene_path (p : String) : String :=
  let base := (p.data.reverse.takeWhile (fun c => c ≠ '/')).reverse
  let rev := base.reverse
  let pre2 := rev.takeWhile (fun c => c ≠ '.')
  if pre2.length = base.length then String.mk base
  else String.mk ((rev.drop (pre2.length + 1)).reverse)

/-- Modelled from the spec: Dataset.build_content_scenes_filter from the
external base contract: keep episodes whose scene identifier (basename
stem of scene_id) is among the requested content scenes. -/
def build_content_scenes_filter (cfg : Config) (ep : NavigationEpisode) : Bool :=
  cfg.content_scenes.contains (scene_from_scene_path ep.scene_id)

/-- Modelled from the spec: Dataset.scene_ids from the external base
contract: the sorted distinct scene_id values of the loaded episodes. -/
def sceneIds (ds : DatasetV1) : List String :=
  List.insertionSort pyLe (ds.episodes.map (fun e => e.scene_id)).dedup

/-- PointNavDatasetV1.check_config_paths_exist. -/
def check_config_paths_exist (fs : FileSystem) (cfg : Config) : Bool :=
  fs.pathExists (combinedPath cfg) && fs.pathExists cfg.scenes_dir

/-- The per-scene shard loop of PointNavDatasetV1.__init__: shard paths
are formatted from the dataset's current template at each iteration
(the template may be overridden by a shard document), the shard is
opened and parsed, and errors propagate, aborting the remaining loop. -/
def loadScenes (fs : FileSystem) (scenes_dir dataset_dir : String) :
    List String → DatasetV1 → DatasetV1 × Option LoadError × List Access
  | [], ds => (ds, none, [])
  | scene :: rest, ds =>
    let p := shardPath ds.content_scenes_path dataset_dir scene
    match fs.readFile p with
    | none => (ds, some LoadError.fileNotFound, [Access.openFile p])
    | some raw =>
      match from_json (some scenes_dir) raw ds with
      | (ds2, some e) => (ds2, some e, [Access.openFile p])
      | (ds2, none) =>
        match loadScenes fs scenes_dir dataset_dir rest ds2 with
        | (ds3, err, acc) => (ds3, err, Access.openFile p :: acc)

/-- PointNavDatasetV1.__init__: with no config the instance keeps its
fresh empty state; otherwise the combined file is opened and parsed,
the sharding layout is detected from the (possibly overridden)
template, and either the per-scene shards are loaded (discovered when
the all-scenes sentinel is requested) or the monolithic episode list is
filtered.  The access list records the file opens and the layout stat
in order. -/
def datasetInit (fs : FileSystem) (config : Option Config) :
    DatasetV1 × Option LoadError × List Access :=
  match config with
  | none => (datasetInitEmpty, none, [])
  | some cfg =>
    let p := combinedPath cfg
    match fs.readFile p with
    | none => (datasetInitEmpty, some LoadError.fileNotFound, [Access.openFile p])
    | some raw =>
      match from_json (some cfg.scenes_dir) raw datasetInitEmpty with
      | (ds1, some e) => (ds1, some e, [Access.openFile p])
      | (ds1, none) =>
        let dd := dirnamePy p
        let pfx := contentPfxOf ds1.content_scenes_path dd
        if (fs.lookupDir pfx).isSome then
          let scenes :=
            if cfg.content_scenes.contains ALL_SCENES_MASK
            then _get_scenes_from_folder fs ds1.content_scenes_path dd
            else cfg.content_scenes
          match loadScenes fs cfg.scenes_dir dd scenes ds1 with
          | (ds2, err, acc) => (ds2, err, Access.openFile p :: Access.statDir pfx :: acc)
        else
          ({ ds1 with episodes := ds1.episodes.filter (build_content_scenes_filter cfg) },
            none, [Access.openFile p, Access.statDir pfx])

/-- PointNavDatasetV1.get_scenes_to_load: fail fast when the configured
paths are missing, then construct a dataset with no content scenes and
either discover the shard scenes or load everything and derive scene
identifiers from the loaded episodes. -/
def get_scenes_to_load (fs : FileSystem) (cfg : Config) : Except LoadError (List String) :=
  let p := combinedPath cfg
  let dataset_dir := dirnamePy p
  if check_config_paths_exist fs cfg then
    match datasetInit fs (some { cfg with content_scenes := [] }) with
    | (_, some e, _) => Except.error e
    | (ds, none, _) =>
      if (fs.lookupDir (contentPfxOf ds.content_scenes_path dataset_dir)).isSome then
        Except.ok (_get_scenes_from_folder fs ds.content_scenes_path dataset_dir)
      else
        match datasetInit fs (some { cfg with content_scenes := [ALL_SCENES_MASK] }) with
        | (_, some e, _) => Except.error e
        | (ds2, none, _) => Except.ok ((sceneIds ds2).map scene_from_scene_path)
  else Except.error LoadError.fileNotFound

/-- Sequential parsing of several documents into one dataset instance
(the combined file followed by shard files): an error aborts the
remaining documents. -/
def parseDocs (sd : Option String) : List RawJson → DatasetV1 → DatasetV1 × Option LoadError
  | [], ds => (ds, none)
  | d :: rest, ds =>
    match from_json sd d ds with
    | (ds1, some e) => (ds1, some e)
    | (ds1, none) => parseDocs sd rest ds1

/-- The template a document declares, if any. -/
def declaredTemplate : RawJson → Option String
  | RawJson.malformed => none
  | RawJson.doc d => d.content_scenes_path

/-- A document that parses without error: not malformed, and every
episode object constructs successfully. -/
def docOkB (sd : Option String) : RawJson → Bool
  | RawJson.malformed => false
  | RawJson.doc d => d.episodes.all (fun e => (processEpisode sd e).isSome)

/- ------------------------------------------------------------------ -/
/- Helper lemmas and order instances                                   -/
/- ------------------------------------------------------------------ -/

theorem listCharLe_cons_elim {a b : Char} {as bs : List Char}
    (h : listCharLe (a :: as) (b :: bs) = true) :
    a.toNat < b.toNat ∨ (a.toNat = b.toNat ∧ listCharLe as bs = true) := by
  by_cases h1 : a.toNat < b.toNat
  · exact Or.inl h1
  · by_cases h2 : b.toNat < a.toNat
    · simp [listCharLe, h1, h2] at h
    · refine Or.inr ⟨by omega, ?_⟩
      simpa [listCharLe, h1, h2] using h

theorem listCharLe_cons_of_lt {a b : Char} {as bs : List Char}
    (h : a.toNat < b.toNat) : listCharLe (a :: as) (b :: bs) = true := by
  simp [listCharLe, h]

theorem listCharLe_cons_of_eq {a b : Char} {as bs : List Char}
    (h : a.toNat = b.toNat) (hr : listCharLe as bs = true) :
    listCharLe (a :: as) (b :: bs) = true := by
  simp [listCharLe, h, Nat.lt_irrefl, hr]

theorem listCharLe_total : ∀ xs ys : List Char,
    listCharLe xs ys = true ∨ listCharLe ys xs = true := by
  intro xs
  induction xs with
  | nil => intro ys; exact Or.inl rfl
  | cons x xs ih =>
    intro ys
    cases ys with
    | nil => exact Or.inr rfl
    | cons y ys2 =>
      by_cases h1 : x.toNat < y.toNat
      · exact Or.inl (listCharLe_cons_of_lt h1)
      · by_cases h2 : y.toNat < x.toNat
        · exact Or.inr (listCharLe_cons_of_lt h2)
        · rcases ih ys2 with h | h
          · exact Or.inl (listCharLe_cons_of_eq (by omega) h)
          · exact Or.inr (listCharLe_cons_of_eq (by omega) h)

theorem listCharLe_trans : ∀ xs ys zs : List Char,
    listCharLe xs ys = true → listCharLe ys zs = true → listCharLe xs zs = true := by
  intro xs
  induction xs with
  | nil => intro ys zs _ _; rfl
  | cons x xs ih =>
    intro ys zs h1 h2
    cases ys with
    | nil => simp [listCharLe] at h1
    | cons y ys2 =>
      cases zs with
      | nil => simp [listCharLe] at h2
      | cons z zs2 =>
        rcases listCharLe_cons_elim h1 with hxy | ⟨hxy, hrec1⟩ <;>
          rcases listCharLe_cons_elim h2 with hyz | ⟨hyz, hrec2⟩
        · exact listCharLe_cons_of_lt (by omega)
        · exact listCharLe_cons_of_lt (by omega)
        · exact listCharLe_cons_of_lt (by omega)
        · exact listCharLe_cons_of_eq (by omega) (ih ys2 zs2 hrec1 hrec2)

instance : IsTotal String pyLe := ⟨fun a b => listCharLe_total a.data b.data⟩

instance : IsTrans String pyLe :=
  ⟨fun a b c hab hbc => listCharLe_trans a.data b.data c.data hab hbc⟩

theorem mem_of_lookup {α : Type} {p : String} {v : α} :
    ∀ {l : List (String × α)}, List.lookup p l = some v → (p, v) ∈ l := by
  intro l
  induction l with
  | nil => intro h; simp [List.lookup] at h
  | cons kv rest ih =>
    intro h
    rw [List.lookup] at h
    by_cases he : p == kv.1
    · have : p = kv.1 := by simpa using he
      simp [he] at h
      exact this ▸ h ▸ List.mem_cons_self _ _
    · simp [he] at h
      exact List.mem_cons_of_mem _ (ih h)

theorem contains_of_mem {a : String} {l : List String} (h : a ∈ l) :
    l.contains a = true := by
  simpa [List.contains] using h

theorem contains_eq_false_of_not_mem {a : String} {l : List String} (h : a ∉ l) :
    l.contains a = false := by
  simpa [List.contains] using h

theorem episodesLoop_ok (sd : Option String) :
    ∀ (eps : List EpisodeObj) (ds : DatasetV1),
      (∀ e ∈ eps, (processEpisode sd e).isSome = true) →
      episodesLoop sd eps ds =
        ({ ds with episodes := ds.episodes ++ eps.filterMap (processEpisode sd) }, none) := by
  intro eps
  induction eps with
  | nil => intro ds _; simp [episodesLoop]
  | cons e rest ih =>
    intro ds h
    obtain ⟨ep, hep⟩ := Option.isSome_iff_exists.mp (h e (List.mem_cons_self e rest))
    have hrest : ∀ e2 ∈ rest, (processEpisode sd e2).isSome = true :=
      fun e2 he2 => h e2 (List.mem_cons_of_mem _ he2)
    simp only [episodesLoop, hep]
    rw [ih _ hrest]
    simp [List.filterMap_cons, hep, List.append_assoc]

theorem episodesLoop_aborts (sd : Option String) :
    ∀ (pre : List EpisodeObj) (bad : EpisodeObj) (rest : List EpisodeObj) (ds : DatasetV1),
      (∀ e ∈ pre, (processEpisode sd e).isSome = true) →
      processEpisode sd bad = none →
      episodesLoop sd (pre ++ bad :: rest) ds =
        ({ ds with episodes := ds.episodes ++ pre.filterMap (processEpisode sd) },
          some LoadError.deserialization) := by
  intro pre
  induction pre with
  | nil =>
    intro bad rest ds _ hbad
    simp [episodesLoop, hbad]
  | cons e pre2 ih =>
    intro bad rest ds h hbad
    obtain ⟨ep, hep⟩ := Option.isSome_iff_exists.mp (h e (List.mem_cons_self e pre2))
    have hpre2 : ∀ e2 ∈ pre2, (processEpisode sd e2).isSome = true :=
      fun e2 he2 => h e2 (List.mem_cons_of_mem _ he2)
    simp only [List.cons_append, episodesLoop, hep, List.append_eq]
    rw [ih bad rest _ hpre2 hbad]
    simp [List.filterMap_cons, hep, List.append_assoc]

theorem from_json_doc_ok (sd : Option String) (csp : Option String) (eps : List EpisodeObj)
    (ds : DatasetV1) (h : ∀ e ∈ eps, (processEpisode sd e).isSome = true) :
    from_json sd (RawJson.doc ⟨csp, eps⟩) ds =
      (⟨ds.episodes ++ eps.filterMap (processEpisode sd),
        csp.getD ds.content_scenes_path⟩, none) := by
  cases csp with
  | none => simp only [from_json]; rw [episodesLoop_ok sd eps ds h]; rfl
  | some t => simp only [from_json]; rw [episodesLoop_ok sd eps _ h]; rfl

theorem loadScenes_ok (fs : FileSystem) (sd dd T : String)
    (epsOf : String → List EpisodeObj) :
    ∀ (scenes : List String) (E : List NavigationEpisode),
      (∀ s ∈ scenes, fs.readFile (shardPath T dd s) =
        some (RawJson.doc ⟨none, epsOf s⟩)) →
      (∀ s ∈ scenes, ∀ e ∈ epsOf s, (processEpisode (some sd) e).isSome = true) →
      loadScenes fs sd dd scenes ⟨E, T⟩ =
        (⟨E ++ (scenes.map (fun s => (epsOf s).filterMap (processEpisode (some sd)))).flatten, T⟩,
          none, scenes.map (fun s => Access.openFile (shardPath T dd s))) := by
  intro scenes
  induction scenes with
  | nil => intro E _ _; simp [loadScenes]
  | cons s rest ih =>
    intro E hread hok
    have hs := hread s (List.mem_cons_self s rest)
    have hsok := hok s (List.mem_cons_self s rest)
    simp only [loadScenes, hs]
    rw [from_json_doc_ok (some sd) none (epsOf s) ⟨E, T⟩ hsok]
    simp only [Option.getD]
    rw [ih (E ++ (epsOf s).filterMap (processEpisode (some sd)))
      (fun s2 hs2 => hread s2 (List.mem_cons_of_mem _ hs2))
      (fun s2 hs2 => hok s2 (List.mem_cons_of_mem _ hs2))]
    simp [List.append_assoc]

theorem stringDataInj {x y : String} (h : x.data = y.data) : x = y := by
  cases x; cases y; exact congrArg String.mk h

theorem endswith_decomp {f ext : String} (hne : ext.data ≠ [])
    (h : endswithPy f ext = true) :
    f.data = (stripExtPy f ext).data ++ ext.data := by
  have hsuf : ext.data <:+ f.data := List.isSuffixOf_iff_suffix.mp h
  obtain ⟨t, ht⟩ := hsuf
  have hlen : f.data.length - ext.data.length = t.length := by
    rw [← ht]; simp [List.length_append]
  have hstrip : (stripExtPy f ext).data = t := by
    simp only [stripExtPy]
    rw [if_neg (fun h0 => hne (List.length_eq_zero.mp h0))]
    show f.data.take (f.data.length - ext.data.length) = t
    rw [hlen, ← ht, List.take_left]
  rw [hstrip, ht]

theorem datasetInit_sharded (fs : FileSystem) (cfg : Config) (csp0 : Option String)
    (hcomb : fs.readFile (combinedPath cfg) = some (RawJson.doc ⟨csp0, []⟩))
    (hdir : (fs.lookupDir (contentPfxOf (csp0.getD defaultContentScenesPath)
      (dirnamePy (combinedPath cfg)))).isSome = true) :
    datasetInit fs (some cfg) =
      ((loadScenes fs cfg.scenes_dir (dirnamePy (combinedPath cfg))
          (if cfg.content_scenes.contains ALL_SCENES_MASK
           then _get_scenes_from_folder fs (csp0.getD defaultContentScenesPath)
             (dirnamePy (combinedPath cfg))
           else cfg.content_scenes)
          ⟨[], csp0.getD defaultContentScenesPath⟩).1,
        (loadScenes fs cfg.scenes_dir (dirnamePy (combinedPath cfg))
          (if cfg.content_scenes.contains ALL_SCENES_MASK
           then _get_scenes_from_folder fs (csp0.getD defaultContentScenesPath)
             (dirnamePy (combinedPath cfg))
           else cfg.content_scenes)
          ⟨[], csp0.getD defaultContentScenesPath⟩).2.1,
        Access.openFile (combinedPath cfg) ::
          Access.statDir (contentPfxOf (csp0.getD defaultContentScenesPath)
            (dirnamePy (combinedPath cfg))) ::
          (loadScenes fs cfg.scenes_dir (dirnamePy (combinedPath cfg))
            (if cfg.content_scenes.contains ALL_SCENES_MASK
             then _get_scenes_from_folder fs (csp0.getD defaultContentScenesPath)
               (dirnamePy (combinedPath cfg))
             else cfg.content_scenes)
            ⟨[], csp0.getD defaultContentScenesPath⟩).2.2) := by
  simp only [datasetInit, hcomb]
  rw [from_json_doc_ok (some cfg.scenes_dir) csp0 [] datasetInitEmpty (by simp)]
  simp only [List.filterMap_nil, List.append_nil, datasetInitEmpty]
  simp only [hdir, if_true]

theorem get_scenes_some (fs : FileSystem) (csp dd : String) (entries : List String)
    (hdir : fs.lookupDir (contentPfxOf csp dd) = some entries) :
    _get_scenes_from_folder fs csp dd =
      List.insertionSort pyLe
        ((entries.filter (fun f => endswithPy f (sceneExtOf csp))).map
          (fun f => stripExtPy f (sceneExtOf csp))) := by
  simp only [_get_scenes_from_folder, hdir]

theorem get_scenes_sorted (fs : FileSystem) (csp dd : String) :
    List.Sorted pyLe (_get_scenes_from_folder fs csp dd) := by
  cases h : fs.lookupDir (contentPfxOf csp dd) with
  | none => simp [_get_scenes_from_folder, h]
  | some entries =>
    simp only [_get_scenes_from_folder, h]
    exact List.sorted_insertionSort pyLe _

theorem get_scenes_perm (fs : FileSystem) (csp dd : String) (entries : List String)
    (hdir : fs.lookupDir (contentPfxOf csp dd) = some entries) :
    (_get_scenes_from_folder fs csp dd).Perm
      ((entries.filter (fun f => endswithPy f (sceneExtOf csp))).map
        (fun f => stripExtPy f (sceneExtOf csp))) := by
  rw [get_scenes_some fs csp dd entries hdir]
  exact List.perm_insertionSort pyLe _

theorem get_scenes_nodup (fs : FileSystem) (csp dd : String) (entries : List String)
    (hdir : fs.lookupDir (contentPfxOf csp dd) = some entries)
    (hext : (sceneExtOf csp).data ≠ []) (hnod : entries.Nodup) :
    (_get_scenes_from_folder fs csp dd).Nodup := by
  have hperm := get_scenes_perm fs csp dd entries hdir
  refine hperm.symm.nodup ?_
  refine List.Nodup.map_on ?_ (List.Nodup.filter _ hnod)
  intro x hx y hy hxy
  have hxe : endswithPy x (sceneExtOf csp) = true := (List.mem_filter.mp hx).2
  have hye : endswithPy y (sceneExtOf csp) = true := (List.mem_filter.mp hy).2
  apply stringDataInj
  rw [endswith_decomp hext hxe, endswith_decomp hext hye, hxy]

theorem mkEpisode_scene_id {e : EpisodeObj} {ep : NavigationEpisode}
    (h : mkEpisode e = some ep) : e.scene_id = some ep.scene_id := by
  unfold mkEpisode at h
  split at h
  case _ eid sid sp sr gs heq1 heq2 heq3 heq4 heq5 =>
    split at h
    · exact absurd h (by simp)
    case _ goals hgs =>
      split at h
      case _ hsps =>
        injection h with h2
        rw [heq2, ← h2]
      case _ paths hsps =>
        split at h
        · exact absurd h (by simp)
        case _ ps hps =>
          injection h with h2
          rw [heq2, ← h2]
  case _ =>
    exact absurd h (by simp)

/-- Claim C10: constructing the dataset with no configuration yields an
empty episode collection, performs no filesystem access, and raises no
error. -/
theorem C10_no_config (fs : FileSystem) :
    datasetInit fs none = (⟨[], defaultContentScenesPath⟩, none, []) := rfl

/-- Claim C9: rewriting scene_id "data/scene_datasets/gibson/Adrian.glb"
with asset root "data/scene_datasets" restores the original string:
the default prefix is stripped and rejoining with the same root is the
identity at the rewrite boundary. -/
theorem C9_roundtrip :
    rewriteSceneId ("data/scene_datasets") ("data/scene_datasets/gibson/Adrian.glb") =
      "data/scene_datasets/gibson/Adrian.glb" := by decide

/-- Claim C8: for every parsed episode, when an asset-root override is
supplied the final scene_id equals the root os.path.join-ed with the
original scene_id with DEFAULT_SCENE_PATH_PREFIX stripped exactly when
the original begins with that prefix; with no override the scene_id is
exactly the one given in the JSON. -/
theorem C8_path_rewrite (root : Option String) (e : EpisodeObj) (ep : NavigationEpisode)
    (h : processEpisode root e = some ep) :
    ∃ s, e.scene_id = some s ∧
      (root = none → ep.scene_id = s) ∧
      (∀ r, root = some r →
        (DEFAULT_SCENE_PATH_PFX.data <+: s.data →
          ep.scene_id = osPathJoin r (pyDrop s (DEFAULT_SCENE_PATH_PFX.data.length))) ∧
        (¬ DEFAULT_SCENE_PATH_PFX.data <+: s.data → ep.scene_id = osPathJoin r s)) := by
  unfold processEpisode at h
  cases hmk : mkEpisode e with
  | none => rw [hmk] at h; exact absurd h (by simp)
  | some ep0 =>
    rw [hmk] at h
    have hsid := mkEpisode_scene_id hmk
    refine ⟨ep0.scene_id, hsid, ?_, ?_⟩
    · intro hr
      subst hr
      simp only at h
      injection h with h2
      rw [← h2]
    · intro r hr
      subst hr
      simp only at h
      injection h with h2
      rw [← h2]
      constructor
      · intro hpre
        have hb : startswithPy ep0.scene_id DEFAULT_SCENE_PATH_PFX = true := by
          simpa [startswithPy] using hpre
        simp [rewriteSceneId, hb, pyDrop]
      · intro hnpre
        have hb : startswithPy ep0.scene_id DEFAULT_SCENE_PATH_PFX = false := by
          rw [Bool.eq_false_iff]
          intro hb2
          exact hnpre (by simpa [startswithPy] using hb2)
        simp [rewriteSceneId, hb]

def eC8 : EpisodeObj :=
  { episode_id := some ("e0"), scene_id := some ("data/scene_datasets/gibson/x.glb"),
    start_position := some [0], start_rotation := some [0],
    goals := some [], shortest_paths := none }

def epC8 : NavigationEpisode :=
  { episode_id := "e0", scene_id := "assets/gibson/x.glb",
    start_position := [0], start_rotation := [0],
    goals := [], shortest_paths := none }

/-- Witness for C8 at a concrete episode with an asset-root override. -/
theorem C8_path_rewrite_witness :
    processEpisode (some ("assets")) eC8 = some epC8 ∧
    (∃ s, eC8.scene_id = some s ∧
      ((some ("assets") : Option String) = none → epC8.scene_id = s) ∧
      (∀ r, (some ("assets") : Option String) = some r →
        (DEFAULT_SCENE_PATH_PFX.data <+: s.data →
          epC8.scene_id = osPathJoin r (pyDrop s (DEFAULT_SCENE_PATH_PFX.data.length))) ∧
        (¬ DEFAULT_SCENE_PATH_PFX.data <+: s.data → epC8.scene_id = osPathJoin r s))) :=
  ⟨by decide, C8_path_rewrite (some ("assets")) eC8 epC8 (by decide)⟩

def goodEp : EpisodeObj :=
  { episode_id := some ("0"), scene_id := some ("data/scene_datasets/gibson/a.glb"),
    start_position := some [1], start_rotation := some [0],
    goals := some [{ position := some [2] }], shortest_paths := none }

def badEp : EpisodeObj :=
  { episode_id := none, scene_id := none, start_position := none,
    start_rotation := none, goals := none, shortest_paths := none }

def cexDocC1 : JsonDoc := { content_scenes_path := none, episodes := [goodEp, badEp] }

/-- Counterexample to claim C1 as stated: a document whose second
episode object is missing required fields makes from_json fail with a
deserialization error, yet the first episode has already been appended,
so the collection is not exactly as it was before the call. -/
theorem C1_no_partial_append_cex :
    (from_json (some ("data/scene_datasets")) (RawJson.doc cexDocC1) datasetInitEmpty).2 =
      some LoadError.deserialization ∧
    (from_json (some ("data/scene_datasets")) (RawJson.doc cexDocC1) datasetInitEmpty).1.episodes ≠
      datasetInitEmpty.episodes := by decide

/-- Claim C1 (amended): malformed JSON fails with a deserialization
error and leaves the episode collection unchanged; an episode object
missing required fields also fails with a deserialization error, but
the valid episodes appearing before it in the document have already
been appended and remain in the collection (appending is per-episode,
not transactional). -/
theorem C1_amended_partial_append (sd : Option String) (ds : DatasetV1) (csp : Option String)
    (pre : List EpisodeObj) (bad : EpisodeObj) (rest : List EpisodeObj)
    (hpre : ∀ e ∈ pre, (processEpisode sd e).isSome = true)
    (hbad : processEpisode sd bad = none) :
    from_json sd RawJson.malformed ds = (ds, some LoadError.deserialization) ∧
    from_json sd (RawJson.doc ⟨csp, pre ++ bad :: rest⟩) ds =
      (⟨ds.episodes ++ pre.filterMap (processEpisode sd),
        csp.getD ds.content_scenes_path⟩, some LoadError.deserialization) := by
  constructor
  · rfl
  · cases csp with
    | none =>
      simp only [from_json]
      rw [episodesLoop_aborts sd pre bad rest ds hpre hbad]
      simp
    | some t =>
      simp only [from_json]
      rw [episodesLoop_aborts sd pre bad rest _ hpre hbad]
      simp

/-- Witness for the amended C1 at a concrete two-episode document. -/
theorem C1_amended_witness :
    (∀ e ∈ [goodEp], (processEpisode (some ("d")) e).isSome = true) ∧
    processEpisode (some ("d")) badEp = none ∧
    (from_json (some ("d")) RawJson.malformed datasetInitEmpty =
        (datasetInitEmpty, some LoadError.deserialization) ∧
      from_json (some ("d")) (RawJson.doc ⟨none, [goodEp] ++ badEp :: []⟩) datasetInitEmpty =
        (⟨datasetInitEmpty.episodes ++ [goodEp].filterMap (processEpisode (some ("d"))),
          (none : Option String).getD datasetInitEmpty.content_scenes_path⟩,
          some LoadError.deserialization)) :=
  ⟨by decide, by decide,
    C1_amended_partial_append (some ("d")) datasetInitEmpty none [goodEp] badEp []
      (by decide) (by decide)⟩

def docT1 : RawJson := RawJson.doc { content_scenes_path := some ("T1/{scene}"), episodes := [] }

def docT2 : RawJson := RawJson.doc { content_scenes_path := some ("T2/{scene}"), episodes := [] }

/-- Counterexample to claim C2 as stated: over a sequence of two parsed
documents that both declare a content-scenes-path template, the dataset
ends up with the template of the second (last) document, not the first. -/
theorem C2_first_template_cex :
    (parseDocs none [docT1, docT2] datasetInitEmpty).1.content_scenes_path = "T2/{scene}" ∧
    ("T2/{scene}" : String) ≠ "T1/{scene}" := by decide

/-- Claim C2 (amended): over every sequence of error-free parsed
documents, the dataset's content-scenes-path template ends up equal to
the template declared by the last document that declares one (each
declaring document overwrites the template; documents that do not
declare one leave it unchanged). -/
theorem C2_amended_last_template (sd : Option String) (docs : List RawJson) :
    ∀ ds : DatasetV1, (∀ d ∈ docs, docOkB sd d = true) →
      (parseDocs sd docs ds).1.content_scenes_path =
        (docs.filterMap declaredTemplate).getLastD ds.content_scenes_path := by
  induction docs with
  | nil => intro ds _; rfl
  | cons d rest ih =>
    intro ds h
    have hd := h d (List.mem_cons_self d rest)
    have hrest : ∀ d2 ∈ rest, docOkB sd d2 = true :=
      fun d2 h2 => h d2 (List.mem_cons_of_mem _ h2)
    cases d with
    | malformed => simp [docOkB] at hd
    | doc dd =>
      have hall : ∀ e ∈ dd.episodes, (processEpisode sd e).isSome = true := by
        simpa [docOkB, List.all_eq_true] using hd
      rcases dd with ⟨csp, eps⟩
      simp only [parseDocs]
      rw [from_json_doc_ok sd csp eps ds hall]
      simp only []
      rw [ih _ hrest]
      cases csp with
      | none => simp only [declaredTemplate, List.filterMap_cons, Option.getD_none]
      | some t =>
        simp only [declaredTemplate, List.filterMap_cons, List.getLastD_cons, Option.getD_some]

/-- Witness for the amended C2 at a concrete two-document sequence. -/
theorem C2_amended_witness :
    (∀ d ∈ [docT1, docT2], docOkB none d = true) ∧
    (parseDocs none [docT1, docT2] datasetInitEmpty).1.content_scenes_path =
      ([docT1, docT2].filterMap declaredTemplate).getLastD
        datasetInitEmpty.content_scenes_path :=
  ⟨by decide, C2_amended_last_template none [docT1, docT2] datasetInitEmpty (by decide)⟩

def fsC7cex : FileSystem := { files := [], dirs := [("root/content/", ["A"])] }

/-- Counterexample to claim C7 as stated: with the suffix-less template
"{data_path}/content/{scene}" the entry "A" ends with the empty suffix,
but Python's filename[:-0] slice yields "" rather than the suffix-
stripped identifier "A", so discovery returns [""] and not ["A"]. -/
theorem C7_strip_suffix_cex :
    _get_scenes_from_folder fsC7cex ("{data_path}/content/{scene}") ("root") = [""] ∧
    "A" ∉ _get_scenes_from_folder fsC7cex ("{data_path}/content/{scene}") ("root") := by
  decide

/-- Claim C7 (amended): when the template's suffix (the part after the
{scene} placeholder) is nonempty, scene discovery returns [] when the
resolved content directory does not exist, and otherwise a
lexicographically sorted permutation of the distinct identifiers
obtained by keeping directory entries ending with the suffix and
stripping it.  When the suffix is empty every kept entry instead yields
the empty-string identifier, by the Python slice filename[:-0] = "". -/
theorem C7_scene_discovery (fs fs2 : FileSystem) (content_scenes_path dataset_dir : String)
    (entries : List String)
    (hext : (sceneExtOf content_scenes_path).data ≠ [])
    (hdir : fs.lookupDir (contentPfxOf content_scenes_path dataset_dir) = some entries)
    (hnod : entries.Nodup)
    (hdir2 : fs2.lookupDir (contentPfxOf content_scenes_path dataset_dir) = none) :
    _get_scenes_from_folder fs2 content_scenes_path dataset_dir = [] ∧
    List.Sorted pyLe (_get_scenes_from_folder fs content_scenes_path dataset_dir) ∧
    (_get_scenes_from_folder fs content_scenes_path dataset_dir).Perm
      ((entries.filter (fun f => endswithPy f (sceneExtOf content_scenes_path))).map
        (fun f => stripExtPy f (sceneExtOf content_scenes_path))) ∧
    (_get_scenes_from_folder fs content_scenes_path dataset_dir).Nodup := by
  refine ⟨?_, get_scenes_sorted _ _ _, get_scenes_perm _ _ _ _ hdir,
    get_scenes_nodup _ _ _ _ hdir hext hnod⟩
  simp [_get_scenes_from_folder, hdir2]

def fsC7w : FileSystem :=
  { files := [], dirs := [("root/content/", ["B.json.gz", "A.json.gz", "notes.txt"])] }

def fsC7none : FileSystem := { files := [], dirs := [] }

/-- Witness for the amended C7 with the default template, a listing
holding two shard files and one non-matching entry, plus a filesystem
with no content directory. -/
theorem C7_scene_discovery_witness :
    ((sceneExtOf defaultContentScenesPath).data ≠ []) ∧
    fsC7w.lookupDir (contentPfxOf defaultContentScenesPath ("root")) =
      some ["B.json.gz", "A.json.gz", "notes.txt"] ∧
    (["B.json.gz", "A.json.gz", "notes.txt"] : List String).Nodup ∧
    fsC7none.lookupDir (contentPfxOf defaultContentScenesPath ("root")) = none ∧
    (_get_scenes_from_folder fsC7none defaultContentScenesPath ("root") = [] ∧
      List.Sorted pyLe (_get_scenes_from_folder fsC7w defaultContentScenesPath ("root")) ∧
      (_get_scenes_from_folder fsC7w defaultContentScenesPath ("root")).Perm
        (((["B.json.gz", "A.json.gz", "notes.txt"] : List String).filter
            (fun f => endswithPy f (sceneExtOf defaultContentScenesPath))).map
          (fun f => stripExtPy f (sceneExtOf defaultContentScenesPath))) ∧
      (_get_scenes_from_folder fsC7w defaultContentScenesPath ("root")).Nodup) :=
  ⟨by decide, by decide, by decide, by decide,
    C7_scene_discovery fsC7w fsC7none defaultContentScenesPath ("root")
      ["B.json.gz", "A.json.gz", "notes.txt"] (by decide) (by decide) (by decide) (by decide)⟩

/-- Claim C5: for a sharded dataset (the combined document holds no
episodes and the content directory exists), loading with an empty
requested-scene list performs zero shard loads and yields an empty
dataset with no error: the only accesses are the combined-file open
and the layout stat. -/
theorem C5_empty_scene_list (fs : FileSystem) (cfg : Config) (csp0 : Option String)
    (hscenes : cfg.content_scenes = [])
    (hcomb : fs.readFile (combinedPath cfg) = some (RawJson.doc ⟨csp0, []⟩))
    (hdir : (fs.lookupDir (contentPfxOf (csp0.getD defaultContentScenesPath)
      (dirnamePy (combinedPath cfg)))).isSome = true) :
    datasetInit fs (some cfg) =
      (⟨[], csp0.getD defaultContentScenesPath⟩, none,
        [Access.openFile (combinedPath cfg),
         Access.statDir (contentPfxOf (csp0.getD defaultContentScenesPath)
           (dirnamePy (combinedPath cfg)))]) := by
  rw [datasetInit_sharded fs cfg csp0 hcomb hdir]
  rw [hscenes]
  simp [loadScenes]

def fsC5 : FileSystem :=
  { files := [("data/val/val.json.gz", RawJson.doc { content_scenes_path := none, episodes := [] })],
    dirs := [("data/val/content/", [])] }

def cfgC5 : Config :=
  { data_path := "data/{split}/{split}.json.gz", split := "val",
    scenes_dir := "data/scene_datasets", content_scenes := [] }

/-- Witness for C5 at a concrete sharded dataset. -/
theorem C5_empty_scene_list_witness :
    cfgC5.content_scenes = [] ∧
    fsC5.readFile (combinedPath cfgC5) =
      some (RawJson.doc ⟨none, []⟩) ∧
    (fsC5.lookupDir (contentPfxOf ((none : Option String).getD defaultContentScenesPath)
      (dirnamePy (combinedPath cfgC5)))).isSome = true ∧
    datasetInit fsC5 (some cfgC5) =
      (⟨[], (none : Option String).getD defaultContentScenesPath⟩, none,
        [Access.openFile (combinedPath cfgC5),
         Access.statDir (contentPfxOf ((none : Option String).getD defaultContentScenesPath)
           (dirnamePy (combinedPath cfgC5)))]) :=
  ⟨by decide, by decide, by decide,
    C5_empty_scene_list fsC5 cfgC5 none (by decide) (by decide) (by decide)⟩

/-- Claim C6: when the combined dataset file's containing directory does
not exist on a well-formed filesystem, loading fails with the
file-not-found error before any parse attempt (the dataset is left in
its pristine empty state), and the static list-available-scenes
operation fails the same way without opening any file. -/
theorem C6_missing_directory (fs : FileSystem) (cfg : Config)
    (hWF : fs.WF)
    (hdir : fs.lookupDir (dirnamePy (combinedPath cfg)) = none)
    (hne : dirnamePy (combinedPath cfg) ≠ combinedPath cfg) :
    datasetInit fs (some cfg) =
      (datasetInitEmpty, some LoadError.fileNotFound, [Access.openFile (combinedPath cfg)]) ∧
    get_scenes_to_load fs cfg = Except.error LoadError.fileNotFound := by
  have hfile : fs.readFile (combinedPath cfg) = none := by
    cases hF : fs.readFile (combinedPath cfg) with
    | none => rfl
    | some r =>
      have hF2 : List.lookup (combinedPath cfg) fs.files = some r := hF
      have hmem := mem_of_lookup hF2
      have hparent := hWF.1 _ hmem
      simp only at hparent
      rw [hdir] at hparent
      simp at hparent
  have hdirp : fs.lookupDir (combinedPath cfg) = none := by
    cases hD : fs.lookupDir (combinedPath cfg) with
    | none => rfl
    | some l =>
      have hD2 : List.lookup (combinedPath cfg) fs.dirs = some l := hD
      have hmem := mem_of_lookup hD2
      rcases hWF.2 _ hmem with h | h
      · simp only at h
        exact absurd h hne
      · simp only at h
        rw [hdir] at h
        simp at h
  constructor
  · simp only [datasetInit, hfile]
  · simp only [get_scenes_to_load, check_config_paths_exist, FileSystem.pathExists,
      hfile, hdirp]
    simp

def fsC6 : FileSystem := { files := [], dirs := [] }

def cfgC6 : Config :=
  { data_path := "data/{split}/{split}.json.gz", split := "test",
    scenes_dir := "data/scene_datasets", content_scenes := ["*"] }

/-- Witness for C6 on the empty (trivially well-formed) filesystem. -/
theorem C6_missing_directory_witness :
    fsC6.WF ∧
    fsC6.lookupDir (dirnamePy (combinedPath cfgC6)) = none ∧
    dirnamePy (combinedPath cfgC6) ≠ combinedPath cfgC6 ∧
    (datasetInit fsC6 (some cfgC6) =
        (datasetInitEmpty, some LoadError.fileNotFound,
          [Access.openFile (combinedPath cfgC6)]) ∧
      get_scenes_to_load fsC6 cfgC6 = Except.error LoadError.fileNotFound) :=
  ⟨⟨by decide, by decide⟩, by decide, by decide,
    C6_missing_directory fsC6 cfgC6 ⟨by decide, by decide⟩ (by decide) (by decide)⟩

/-- Claim C3: for a sharded dataset (combined document holds no
episodes, content directory exists, every discovered shard present,
well-formed, and declaring no template override) loaded with the
all-scenes sentinel among the requested scenes, the episode collection
is exactly the concatenation of every available shard's episodes in
lexicographically sorted scene-identifier order, each shard's internal
order preserved, with no error. -/
theorem C3_all_scenes_sorted_concat (fs : FileSystem) (cfg : Config) (csp0 : Option String)
    (entries : List String) (epsOf : String → List EpisodeObj)
    (hmask : ALL_SCENES_MASK ∈ cfg.content_scenes)
    (hcomb : fs.readFile (combinedPath cfg) = some (RawJson.doc ⟨csp0, []⟩))
    (hdir : fs.lookupDir (contentPfxOf (csp0.getD defaultContentScenesPath)
      (dirnamePy (combinedPath cfg))) = some entries)
    (hshard : ∀ s ∈ _get_scenes_from_folder fs (csp0.getD defaultContentScenesPath)
        (dirnamePy (combinedPath cfg)),
      fs.readFile (shardPath (csp0.getD defaultContentScenesPath)
        (dirnamePy (combinedPath cfg)) s) = some (RawJson.doc ⟨none, epsOf s⟩))
    (hok : ∀ s ∈ _get_scenes_from_folder fs (csp0.getD defaultContentScenesPath)
        (dirnamePy (combinedPath cfg)),
      ∀ e ∈ epsOf s, (processEpisode (some cfg.scenes_dir) e).isSome = true) :
    (datasetInit fs (some cfg)).1.episodes =
      ((_get_scenes_from_folder fs (csp0.getD defaultContentScenesPath)
          (dirnamePy (combinedPath cfg))).map
        (fun s => (epsOf s).filterMap (processEpisode (some cfg.scenes_dir)))).flatten ∧
    (datasetInit fs (some cfg)).2.1 = none ∧
    List.Sorted pyLe (_get_scenes_from_folder fs (csp0.getD defaultContentScenesPath)
      (dirnamePy (combinedPath cfg))) ∧
    (_get_scenes_from_folder fs (csp0.getD defaultContentScenesPath)
        (dirnamePy (combinedPath cfg))).Perm
      ((entries.filter
          (fun f => endswithPy f (sceneExtOf (csp0.getD defaultContentScenesPath)))).map
        (fun f => stripExtPy f (sceneExtOf (csp0.getD defaultContentScenesPath)))) := by
  have hcont : cfg.content_scenes.contains ALL_SCENES_MASK = true := contains_of_mem hmask
  rw [datasetInit_sharded fs cfg csp0 hcomb (by rw [hdir]; rfl)]
  simp only [hcont, if_true]
  rw [loadScenes_ok fs cfg.scenes_dir (dirnamePy (combinedPath cfg))
    (csp0.getD defaultContentScenesPath) epsOf
    (_get_scenes_from_folder fs (csp0.getD defaultContentScenesPath)
      (dirnamePy (combinedPath cfg))) [] hshard hok]
  exact ⟨by simp, rfl, get_scenes_sorted _ _ _, get_scenes_perm _ _ _ _ hdir⟩

/-- Claim C4: for a sharded dataset loaded with a specific non-empty
requested scene list that does not contain the all-scenes sentinel
(each requested shard present, well-formed, and declaring no template
override), the episode collection is exactly the concatenation of the
requested scenes' shard episodes in the caller-specified order, with no
error, and the only shard files opened are the requested ones. -/
theorem C4_requested_scenes_only (fs : FileSystem) (cfg : Config) (csp0 : Option String)
    (epsOf : String → List EpisodeObj)
    (hmask : ALL_SCENES_MASK ∉ cfg.content_scenes)
    ( _hne : cfg.content_scenes ≠ [])
    (hcomb : fs.readFile (combinedPath cfg) = some (RawJson.doc ⟨csp0, []⟩))
    (hdir : (fs.lookupDir (contentPfxOf (csp0.getD defaultContentScenesPath)
      (dirnamePy (combinedPath cfg)))).isSome = true)
    (hshard : ∀ s ∈ cfg.content_scenes,
      fs.readFile (shardPath (csp0.getD defaultContentScenesPath)
        (dirnamePy (combinedPath cfg)) s) = some (RawJson.doc ⟨none, epsOf s⟩))
    (hok : ∀ s ∈ cfg.content_scenes,
      ∀ e ∈ epsOf s, (processEpisode (some cfg.scenes_dir) e).isSome = true) :
    (datasetInit fs (some cfg)).1.episodes =
      (cfg.content_scenes.map
        (fun s => (epsOf s).filterMap (processEpisode (some cfg.scenes_dir)))).flatten ∧
    (datasetInit fs (some cfg)).2.1 = none ∧
    (datasetInit fs (some cfg)).2.2 =
      Access.openFile (combinedPath cfg) ::
        Access.statDir (contentPfxOf (csp0.getD defaultContentScenesPath)
          (dirnamePy (combinedPath cfg))) ::
        cfg.content_scenes.map
          (fun s => Access.openFile (shardPath (csp0.getD defaultContentScenesPath)
            (dirnamePy (combinedPath cfg)) s)) := by
  have hcont : cfg.content_scenes.contains ALL_SCENES_MASK = false :=
    contains_eq_false_of_not_mem hmask
  rw [datasetInit_sharded fs cfg csp0 hcomb hdir]
  simp only [hcont, if_false, Bool.false_eq_true]
  rw [loadScenes_ok fs cfg.scenes_dir (dirnamePy (combinedPath cfg))
    (csp0.getD defaultContentScenesPath) epsOf cfg.content_scenes [] hshard hok]
  exact ⟨by simp, rfl, rfl⟩

def eObjA : EpisodeObj :=
  { episode_id := some ("0"), scene_id := some ("data/scene_datasets/gibson/Adrian.glb"),
    start_position := some [1], start_rotation := some [0],
    goals := some [{ position := some [2] }], shortest_paths := none }

def eObjB : EpisodeObj :=
  { episode_id := some ("1"), scene_id := some ("data/scene_datasets/gibson/Bolton.glb"),
    start_position := some [3], start_rotation := some [0],
    goals := some [{ position := some [4] }],
    shortest_paths := some [[{ position := some [5], rotation := some [6], action := some 1 }]] }

def epsOfC34 : String → List EpisodeObj := fun s =>
  if s = "Adrian" then [eObjA] else if s = "Bolton" then [eObjB] else []

def fsC34 : FileSystem :=
  { files :=
      [("data/train/train.json.gz",
         RawJson.doc { content_scenes_path := none, episodes := [] }),
       ("data/train/content/Adrian.json.gz",
         RawJson.doc { content_scenes_path := none, episodes := [eObjA] }),
       ("data/train/content/Bolton.json.gz",
         RawJson.doc { content_scenes_path := none, episodes := [eObjB] })],
    dirs := [("data/train/content/", ["Bolton.json.gz", "Adrian.json.gz"])] }

def cfgC3 : Config :=
  { data_path := "data/{split}/{split}.json.gz", split := "train",
    scenes_dir := "data/scene_datasets", content_scenes := ["*"] }

/-- Witness for C3 on a concrete two-shard dataset whose listing is
unsorted on disk. -/
theorem C3_all_scenes_sorted_concat_witness :
    ALL_SCENES_MASK ∈ cfgC3.content_scenes ∧
    fsC34.readFile (combinedPath cfgC3) = some (RawJson.doc ⟨none, []⟩) ∧
    fsC34.lookupDir (contentPfxOf ((none : Option String).getD defaultContentScenesPath)
      (dirnamePy (combinedPath cfgC3))) = some ["Bolton.json.gz", "Adrian.json.gz"] ∧
    (∀ s ∈ _get_scenes_from_folder fsC34 ((none : Option String).getD defaultContentScenesPath)
        (dirnamePy (combinedPath cfgC3)),
      fsC34.readFile (shardPath ((none : Option String).getD defaultContentScenesPath)
        (dirnamePy (combinedPath cfgC3)) s) = some (RawJson.doc ⟨none, epsOfC34 s⟩)) ∧
    (∀ s ∈ _get_scenes_from_folder fsC34 ((none : Option String).getD defaultContentScenesPath)
        (dirnamePy (combinedPath cfgC3)),
      ∀ e ∈ epsOfC34 s, (processEpisode (some cfgC3.scenes_dir) e).isSome = true) ∧
    ((datasetInit fsC34 (some cfgC3)).1.episodes =
      ((_get_scenes_from_folder fsC34 ((none : Option String).getD defaultContentScenesPath)
          (dirnamePy (combinedPath cfgC3))).map
        (fun s => (epsOfC34 s).filterMap (processEpisode (some cfgC3.scenes_dir)))).flatten ∧
    (datasetInit fsC34 (some cfgC3)).2.1 = none ∧
    List.Sorted pyLe (_get_scenes_from_folder fsC34
      ((none : Option String).getD defaultContentScenesPath)
      (dirnamePy (combinedPath cfgC3))) ∧
    (_get_scenes_from_folder fsC34 ((none : Option String).getD defaultContentScenesPath)
        (dirnamePy (combinedPath cfgC3))).Perm
      (((["Bolton.json.gz", "Adrian.json.gz"] : List String).filter
          (fun f => endswithPy f (sceneExtOf ((none : Option String).getD defaultContentScenesPath)))).map
        (fun f => stripExtPy f
          (sceneExtOf ((none : Option String).getD defaultContentScenesPath))))) :=
  ⟨by decide, by decide, by decide, by decide, by decide,
    C3_all_scenes_sorted_concat fsC34 cfgC3 none ["Bolton.json.gz", "Adrian.json.gz"] epsOfC34
      (by decide) (by decide) (by decide) (by decide) (by decide)⟩

def cfgC4 : Config :=
  { data_path := "data/{split}/{split}.json.gz", split := "train",
    scenes_dir := "data/scene_datasets", content_scenes := ["Bolton"] }

/-- Witness for C4 on the same concrete dataset, requesting only one of
the two available shards. -/
theorem C4_requested_scenes_only_witness :
    ALL_SCENES_MASK ∉ cfgC4.content_scenes ∧
    cfgC4.content_scenes ≠ [] ∧
    fsC34.readFile (combinedPath cfgC4) = some (RawJson.doc ⟨none, []⟩) ∧
    (fsC34.lookupDir (contentPfxOf ((none : Option String).getD defaultContentScenesPath)
      (dirnamePy (combinedPath cfgC4)))).isSome = true ∧
    (∀ s ∈ cfgC4.content_scenes,
      fsC34.readFile (shardPath ((none : Option String).getD defaultContentScenesPath)
        (dirnamePy (combinedPath cfgC4)) s) = some (RawJson.doc ⟨none, epsOfC34 s⟩)) ∧
    (∀ s ∈ cfgC4.content_scenes,
      ∀ e ∈ epsOfC34 s, (processEpisode (some cfgC4.scenes_dir) e).isSome = true) ∧
    ((datasetInit fsC34 (some cfgC4)).1.episodes =
      (cfgC4.content_scenes.map
        (fun s => (epsOfC34 s).filterMap (processEpisode (some cfgC4.scenes_dir)))).flatten ∧
    (datasetInit fsC34 (some cfgC4)).2.1 = none ∧
    (datasetInit fsC34 (some cfgC4)).2.2 =
      Access.openFile (combinedPath cfgC4) ::
        Access.statDir (contentPfxOf ((none : Option String).getD defaultContentScenesPath)
          (dirnamePy (combinedPath cfgC4))) ::
        cfgC4.content_scenes.map
          (fun s => Access.openFile (shardPath
            ((none : Option String).getD defaultContentScenesPath)
            (dirnamePy (combinedPath cfgC4)) s))) :=
  ⟨by decide, by decide, by decide, by decide, by decide, by decide,
    C4_requested_scenes_only fsC34 cfgC4 none epsOfC34
      (by decide) (by decide) (by decide) (by decide) (by decide) (by decide)⟩
